import Mathlib

/-!
# Verification of the WhatsApp AI bot gateway

A shallow embedding of `src/index.js` and its configuration (`src/unnamed/part_000`,
the `config` module).  Pure computations (the cache key, number formatting, JS string
length) are translated directly; the stateful parts (the response cache, the
connected-user set, the request handlers) are modelled as explicit state-passing
functions; the remote completion API and the outbound WhatsApp transport are
parameters (oracles) of the handlers.

The `node-cache` library itself is not part of the repository sources; its
behaviour is modelled from the specification's ResponseCache contract (see the
doc comments on `cacheGet`, `cacheSet`, `flushAll`).
-/

set_option autoImplicit false

namespace WABot

/-! ## Configuration constants (src/unnamed/part_000, the `config` module) -/

/-- `config.CACHE.TTL` — 300 seconds. -/
def CACHE_TTL : Nat := 300

/-- `config.CACHE.CHECK_PERIOD` — 600 seconds. -/
def CACHE_CHECK_PERIOD : Nat := 600

/-- `config.FEATURES.ENABLE_CACHING`. -/
def ENABLE_CACHING : Bool := true

/-- `config.MESSAGES.ERROR_GENERIC`. -/
def ERROR_GENERIC : String := "Sorry, something went wrong. Please try again! 🙏"

/-- `config.MESSAGES.ERROR_AI_TIMEOUT`. -/
def ERROR_AI_TIMEOUT : String := "AI response timeout. Please try with a shorter message."

/-! ## The response cache

Modelled from the spec: the `node-cache` instance constructed at
`src/index.js:21` (`new NodeCache({stdTTL: config.CACHE.TTL, checkperiod: ...})`).
The library implementation is not under `src/`; the model follows the spec's
ResponseCache contract: an entry carries `expiresAt = insertTime + TTL` and is
visible to lookups only while `now < expiresAt`; `set` inserts or overwrites and
resets expiry; `flushAll` removes all entries; `stats` exposes hit/miss counters
counted since process start.  Time is an explicit `Nat` parameter (seconds). -/

structure CacheEntry where
  key : String
  value : String
  expiresAt : Nat
  deriving Repr, DecidableEq

structure NodeCache where
  entries : List CacheEntry
  hits : Nat
  misses : Nat
  stdTTL : Nat
  checkperiod : Nat
  deriving Repr, DecidableEq

/-- The cache instance of `src/index.js:21-24`, with the configured TTL. -/
def appCache : NodeCache :=
  { entries := [], hits := 0, misses := 0,
    stdTTL := CACHE_TTL, checkperiod := CACHE_CHECK_PERIOD }

/-- Modelled from the spec: lookup of a key among the stored entries. -/
def cacheLookup (entries : List CacheEntry) (k : String) : Option CacheEntry :=
  entries.find? (fun e => e.key == k)

/-- Modelled from the spec: `cache.get(k)` — returns the stored value while
`now < expiresAt`, absent otherwise (expiry is lazy); bumps the hit or miss
counter. -/
def cacheGet (c : NodeCache) (now : Nat) (k : String) : Option String × NodeCache :=
  match cacheLookup c.entries k with
  | some e =>
      if now < e.expiresAt then (some e.value, { c with hits := c.hits + 1 })
      else (none, { c with misses := c.misses + 1 })
  | none => (none, { c with misses := c.misses + 1 })

/-- Modelled from the spec: `cache.set(k, v)` — inserts or overwrites the entry
for `k` with expiry `now + stdTTL`. -/
def cacheSet (c : NodeCache) (now : Nat) (k v : String) : NodeCache :=
  { c with entries :=
      ⟨k, v, now + c.stdTTL⟩ :: c.entries.filter (fun e => e.key ≠ k) }

/-- Modelled from the spec: `cache.flushAll()` — removes all entries. -/
def flushAll (c : NodeCache) : NodeCache :=
  { c with entries := [] }

/-- `stats()` view: hits, misses and (lazy) entry count. -/
structure CacheStats where
  hits : Nat
  misses : Nat
  size : Nat
  deriving Repr, DecidableEq

/-- Modelled from the spec: `cache.getStats()`. -/
def getStats (c : NodeCache) : CacheStats :=
  { hits := c.hits, misses := c.misses, size := c.entries.length }

/-! ## The fingerprint (cache key) of `getAIResponse` (src/index.js:82)

`const cacheKey = `ai_${platform}_${Buffer.from(message).toString('base64').slice(0, 20)}`;`

`Buffer.from(message)` is the UTF-8 byte sequence of the message; the key takes
the first 20 characters of its base64 encoding. -/

/-- UTF-8 encoding of a single code point (as `Buffer.from` performs). -/
def utf8EncodeChar (c : Nat) : List Nat :=
  if c < 0x80 then [c]
  else if c < 0x800 then
    [0xC0 ||| (c >>> 6), 0x80 ||| (c &&& 0x3F)]
  else if c < 0x10000 then
    [0xE0 ||| (c >>> 12), 0x80 ||| ((c >>> 6) &&& 0x3F), 0x80 ||| (c &&& 0x3F)]
  else
    [0xF0 ||| (c >>> 18), 0x80 ||| ((c >>> 12) &&& 0x3F),
     0x80 ||| ((c >>> 6) &&& 0x3F), 0x80 ||| (c &&& 0x3F)]

/-- UTF-8 bytes of a string (`Buffer.from(message)`). -/
def utf8Bytes (s : String) : List Nat :=
  (s.data.map (fun ch => utf8EncodeChar ch.toNat)).flatten

/-- The standard base64 alphabet. -/
def base64Alphabet : String :=
  "ABCDEFGHIJKLMNOPQRSTUVWXYZabcdefghijklmnopqrstuvwxyz0123456789+/"

/-- Character `n` of the base64 alphabet. -/
def b64Char (n : Nat) : Char :=
  base64Alphabet.data.getD n 'A'

/-- Base64 encoding of a byte list, 3 bytes to 4 characters, `=`-padded. -/
def base64Chunks : List Nat → List Char
  | [] => []
  | [a] => [b64Char (a >>> 2), b64Char ((a &&& 3) <<< 4), '=', '=']
  | [a, b] => [b64Char (a >>> 2), b64Char (((a &&& 3) <<< 4) ||| (b >>> 4)),
               b64Char ((b &&& 15) <<< 2), '=']
  | a :: b :: c :: rest =>
      b64Char (a >>> 2) :: b64Char (((a &&& 3) <<< 4) ||| (b >>> 4)) ::
      b64Char (((b &&& 15) <<< 2) ||| (c >>> 6)) :: b64Char (c &&& 63) ::
      base64Chunks rest

/-- `Buffer.from(message).toString('base64')`. -/
def base64Encode (bs : List Nat) : String :=
  String.mk (base64Chunks bs)

/-- The cache key of `getAIResponse` (src/index.js:82). -/
def cacheKey (platform message : String) : String :=
  "ai_" ++ platform ++ "_" ++ (base64Encode (utf8Bytes message)).take 20

/-! ## Global mutable state (src/index.js:76-78)

`whatsappClient`, `botStatus` and `connectedUsers` (a JS `Set`, modelled as a
duplicate-free insertion list). -/

structure AppState where
  cache : NodeCache
  connectedUsers : List String
  botStatus : String
  clientInitialized : Bool
  deriving Repr, DecidableEq

/-- `connectedUsers.add(x)` — JS `Set.add`: no-op when already present. -/
def setAdd (s : List String) (x : String) : List String :=
  if x ∈ s then s else s ++ [x]

/-- The state right after startup: empty cache, no users, `botStatus =
'initializing'` (src/index.js:77), client not yet constructed. -/
def initialState : AppState :=
  { cache := appCache, connectedUsers := [], botStatus := "initializing",
    clientInitialized := false }

/-! ## The completion client (the axios call of src/index.js:96-112)

The remote API is an oracle: one invocation either succeeds with a reply text,
times out (axios `ECONNABORTED`), or fails with some transport/API error. -/

inductive AIOutcome where
  | success (reply : String)
  | timeout
  | failure (detail : String)
  deriving Repr, DecidableEq

deriving instance DecidableEq for Except

/-- Result of `getAIResponse`: the returned reply (`Except.ok`) or the thrown
error's message (`Except.error`), the cache after the call, and how many times
the remote completion API was invoked. -/
structure AIResponseResult where
  result : Except String String
  cache : NodeCache
  completionCalls : Nat
  deriving Repr, DecidableEq

/-- The remote call and its aftermath (src/index.js:93-129): on success the
reply is cached (when caching is enabled) and returned; a timeout throws
`ERROR_AI_TIMEOUT`; any other failure throws `ERROR_GENERIC`. -/
def callCompletion (c : NodeCache) (now : Nat) (key : String)
    (oracle : AIOutcome) : AIResponseResult :=
  match oracle with
  | .success reply =>
      ⟨.ok reply, if ENABLE_CACHING then cacheSet c now key reply else c, 1⟩
  | .timeout => ⟨.error ERROR_AI_TIMEOUT, c, 1⟩
  | .failure _ => ⟨.error ERROR_GENERIC, c, 1⟩

/-- `getAIResponse(message, platform)` (src/index.js:81-130).  The cached value
is consulted first; note the JS truthiness test `if (cached)` at line 87: a
cached empty string does not count as a hit. -/
def getAIResponse (c : NodeCache) (now : Nat) (message platform : String)
    (oracle : AIOutcome) : AIResponseResult :=
  let key := cacheKey platform message
  if ENABLE_CACHING then
    match cacheGet c now key with
    | (some cached, c1) =>
        if cached ≠ "" then ⟨.ok cached, c1, 0⟩
        else callCompletion c1 now key oracle
    | (none, c1) => callCompletion c1 now key oracle
  else
    callCompletion c now key oracle

/-! ## JS request-body values

A request-body field is absent (`undefined`), a string, or some other JS value
of which only the truthiness matters to the handlers. -/

inductive JSVal where
  | str (s : String)
  | other (truthy : Bool)
  deriving Repr, DecidableEq

/-- JS truthiness of an optional body field (`undefined` and `''` are falsy). -/
def jsTruthy : Option JSVal → Bool
  | none => false
  | some (.str s) => s ≠ ""
  | some (.other t) => t

/-- JS `String.prototype.length`: UTF-16 code units. -/
def jsLength (s : String) : Nat :=
  (s.data.map (fun c => if c.toNat < 0x10000 then 1 else 2)).sum

/-! ## POST /api/chat (src/index.js:237-276) -/

/-- The JSON body a handler responds with, plus the HTTP status.  Only the
fields the claims inspect are modelled; `none` means the field is absent. -/
structure HttpResponse where
  status : Nat
  success : Option Bool
  error : Option String
  reply : Option String
  sessionId : Option String
  message : Option String
  deriving Repr, DecidableEq

/-- Outcome of one `/api/chat` request: the response, the state afterwards, and
the number of remote completion calls made while serving it. -/
structure ChatResult where
  response : HttpResponse
  state : AppState
  completionCalls : Nat
  deriving Repr, DecidableEq

/-- The 400 response of src/index.js:242. -/
def chatBadType : HttpResponse :=
  { status := 400, success := none, reply := none, sessionId := none,
    message := none, error := some "Message is required and must be a string" }

/-- The 400 response of src/index.js:248. -/
def chatTooLong : HttpResponse :=
  { status := 400, success := none, reply := none, sessionId := none,
    message := none, error := some "Message too long. Maximum 2000 characters allowed." }

/-- `app.post('/api/chat')` — validate the message, call `getAIResponse`
with platform `web`, answer 200 with the reply or 500 with the thrown error's
message (src/index.js:237-276).  `connectedUsers` is not touched. -/
def chatHandler (st : AppState) (now : Nat) (message : Option JSVal)
    (sessionId : Option String) (oracle : AIOutcome) : ChatResult :=
  match message with
  | some (.str s) =>
      if s = "" then ⟨chatBadType, st, 0⟩
      else if 2000 < jsLength s then ⟨chatTooLong, st, 0⟩
      else
        let r := getAIResponse st.cache now s "web" oracle
        let st1 := { st with cache := r.cache }
        match r.result with
        | .ok aiReply =>
            ⟨{ status := 200, success := some true, reply := some aiReply,
               sessionId := some (match sessionId with
                 | some sid => if sid = "" then "anonymous" else sid
                 | none => "anonymous"),
               error := none, message := none }, st1, r.completionCalls⟩
        | .error e =>
            ⟨{ status := 500, success := some false,
               error := some (if e = "" then ERROR_GENERIC else e),
               reply := none, sessionId := none, message := none },
             st1, r.completionCalls⟩
  | _ => ⟨chatBadType, st, 0⟩

/-! ## The WhatsApp message event handler (src/index.js:171-198) -/

/-- An inbound `whatsapp-web.js` message: its sender (`msg.from`), whether the
bot itself sent it (`msg.fromMe`), and its text (`msg.body`). -/
structure WAMsg where
  sender : String
  fromMe : Bool
  body : String
  deriving Repr, DecidableEq

/-- Outcome of the message event: state afterwards, completion calls made, and
the replies sent back over WhatsApp (in order). -/
structure WAHandleResult where
  state : AppState
  completionCalls : Nat
  replies : List String
  deriving Repr, DecidableEq

/-- `whatsappClient.on('message')` — skip broadcast-status and own messages,
record the sender, get the AI reply, reply with it; on failure reply with the
generic error (src/index.js:171-198). -/
def waMessageHandler (st : AppState) (now : Nat) (msg : WAMsg)
    (oracle : AIOutcome) : WAHandleResult :=
  if msg.sender = "status@broadcast" ∨ msg.fromMe then ⟨st, 0, []⟩
  else
    let st1 := { st with connectedUsers := setAdd st.connectedUsers msg.sender }
    let r := getAIResponse st1.cache now msg.body "whatsapp" oracle
    let st2 := { st1 with cache := r.cache }
    match r.result with
    | .ok aiReply => ⟨st2, r.completionCalls, [aiReply]⟩
    | .error _ => ⟨st2, r.completionCalls, [ERROR_GENERIC]⟩

/-! ## POST /api/send (src/index.js:297-329) -/

/-- Outcome of one `/api/send` request: the response and the dispatch attempted
through `whatsappClient.sendMessage` (destination, text), if any. -/
structure SendResult where
  response : HttpResponse
  dispatched : Option (String × String)
  deriving Repr, DecidableEq

/-- JS `String.prototype.includes` with a one-character needle. -/
def jsIncludes (s : String) (c : Char) : Bool :=
  s.data.contains c

/-- `number.includes('@') ? number : `${number}@c.us`` (src/index.js:314). -/
def formatNumber (number : String) : String :=
  if jsIncludes number '@' then number else number ++ "@c.us"

/-- `app.post('/api/send')` — 503 unless the client exists and is ready, 400
unless number and message are truthy, otherwise dispatch to the formatted
number; a transport failure is caught and its raw `error.message` echoed
(src/index.js:297-329).  Body fields follow the API contract
`{number: string, message: string}`; `none` is an absent field.  `sendOutcome`
is the transport oracle for `whatsappClient.sendMessage`: `Except.error d` is a
rejection whose `error.message` is `d`. -/
def sendHandler (clientInitialized : Bool) (botStatus : String)
    (number message : Option String) (sendOutcome : Except String Unit) :
    SendResult :=
  if clientInitialized = false ∨ botStatus ≠ "ready" then
    ⟨{ status := 503, success := none, error := some "WhatsApp bot not ready",
       reply := none, sessionId := none, message := none }, none⟩
  else
    match number, message with
    | some n, some m =>
        if n = "" ∨ m = "" then
          ⟨{ status := 400, success := none,
             error := some "Number and message are required",
             reply := none, sessionId := none, message := none }, none⟩
        else
          let dest := formatNumber n
          match sendOutcome with
          | .ok _ =>
              ⟨{ status := 200, success := some true, error := none, reply := none,
                 sessionId := none, message := some "Message sent successfully" },
               some (dest, m)⟩
          | .error d =>
              ⟨{ status := 500, success := some false, error := some d,
                 reply := none, sessionId := none, message := none },
               some (dest, m)⟩
    | _, _ =>
        ⟨{ status := 400, success := none,
           error := some "Number and message are required",
           reply := none, sessionId := none, message := none }, none⟩

/-! ## POST /api/webhook (src/index.js:279-294) and
POST /api/cache/clear (src/index.js:332-344) -/

/-- `app.post('/api/webhook')` — answers success; a failure while processing is
caught and its raw `error.message` echoed in the 500 body. -/
def webhookHandler (processingOutcome : Except String Unit) : HttpResponse :=
  match processingOutcome with
  | .ok _ =>
      { status := 200, success := some true, error := none, reply := none,
        sessionId := none, message := some "Webhook processed successfully" }
  | .error d =>
      { status := 500, success := some false, error := some d, reply := none,
        sessionId := none, message := none }

/-- `app.post('/api/cache/clear')` — flush the cache, answer success. -/
def cacheClearHandler (c : NodeCache) : NodeCache × HttpResponse :=
  (flushAll c,
   { status := 200, success := some true, error := none, reply := none,
     sessionId := none, message := some "Cache cleared successfully" })

/-! ## Cache operation sequences (for the stats-monotonicity claim) -/

/-- One cache operation the process can perform: a timed lookup, a timed
insertion, or the administrative flush of `/api/cache/clear`. -/
inductive CacheOp where
  | get (now : Nat) (key : String)
  | set (now : Nat) (key value : String)
  | flush
  deriving Repr, DecidableEq

/-- Apply one operation to the cache state. -/
def applyOp (c : NodeCache) : CacheOp → NodeCache
  | .get now k => (cacheGet c now k).2
  | .set now k v => cacheSet c now k v
  | .flush => (cacheClearHandler c).1

/-- Apply a sequence of operations from left to right. -/
def applyOps (c : NodeCache) (ops : List CacheOp) : NodeCache :=
  ops.foldl applyOp c

/-! ## Helper lemmas -/

/-- A fresh `set` puts its entry at the front, so the subsequent lookup finds it. -/
theorem cacheLookup_cacheSet (c : NodeCache) (t : Nat) (k v : String) :
    cacheLookup (cacheSet c t k v).entries k = some ⟨k, v, t + c.stdTTL⟩ := by
  simp [cacheSet, cacheLookup]

/-- An element just added by `setAdd` is a member. -/
theorem mem_setAdd (s : List String) (x : String) : x ∈ setAdd s x := by
  by_cases h : x ∈ s <;> simp [setAdd, h]

/-- A lookup never changes the configured TTL. -/
theorem cacheGet_stdTTL (c : NodeCache) (now : Nat) (k : String) :
    ((cacheGet c now k).2).stdTTL = c.stdTTL := by
  rw [cacheGet]
  rcases cacheLookup c.entries k with _ | e
  · rfl
  · dsimp only
    split <;> rfl

/-- The message of 2000 ASCII characters used to exercise the length check. -/
def msg2000 : String := String.mk (List.replicate 2000 'a')

/-- A replicated ASCII character contributes one UTF-16 unit per copy. -/
theorem jsLength_msg2000 : jsLength msg2000 = 2000 := by
  show ((List.replicate 2000 'a').map
    (fun c => if c.toNat < 0x10000 then 1 else 2)).sum = 2000
  rw [List.map_replicate]
  show (List.replicate 2000 1).sum = 2000
  rw [List.sum_const_nat]

/-- Every error `getAIResponse` throws is one of the two configured messages
(src/index.js:121-129). -/
theorem getAIResponse_error_classified (c : NodeCache) (now : Nat)
    (message platform : String) (o : AIOutcome) (e : String)
    (h : (getAIResponse c now message platform o).result = .error e) :
    e = ERROR_AI_TIMEOUT ∨ e = ERROR_GENERIC := by
  unfold getAIResponse callCompletion at h
  cases o <;>
    simp only [ENABLE_CACHING, if_true, ite_true] at h <;>
    rcases hg : cacheGet c now (cacheKey platform message) with ⟨v, c1⟩ <;>
    rw [hg] at h <;>
    rcases v with _ | val <;>
    simp_all <;>
    split at h <;> simp_all

/-! ## The claims -/

/-- C2: for every key `k` and value `v`, `cache.set(k, v)` followed immediately
by `cache.get(k)` returns `v`; once the TTL (the configured 300 seconds) has
elapsed since the insertion, `cache.get(k)` returns absent. -/
theorem C2_cache_roundtrip (c : NodeCache) (t u : Nat) (k v : String)
    (hstd : c.stdTTL = CACHE_TTL) (hu : t + CACHE_TTL ≤ u) :
    (cacheGet (cacheSet c t k v) t k).1 = some v ∧
    (cacheGet (cacheSet c t k v) u k).1 = none := by
  have hl := cacheLookup_cacheSet c t k v
  rw [hstd] at hl
  constructor
  · rw [cacheGet, hl]
    have ht : t < t + CACHE_TTL := by simp [CACHE_TTL]
    simp [ht]
  · rw [cacheGet, hl]
    have ht : ¬ u < t + CACHE_TTL := by omega
    simp [ht]

/-- Witness for C2 at the application's cache, `k = "k"`, `v = "v"`, insertion
at time 0, second lookup at time 300. -/
theorem C2_cache_roundtrip_witness :
    (cacheGet (cacheSet appCache 0 "k" "v") 0 "k").1 = some "v" ∧
    (cacheGet (cacheSet appCache 0 "k" "v") 300 "k").1 = none :=
  C2_cache_roundtrip appCache 0 300 "k" "v" rfl (by decide)

/-- C7: the fingerprint (cache key) of `getAIResponse` is a deterministic pure
function of `(platform, message)`: identical inputs give identical keys. -/
theorem C7_fingerprint_deterministic (p₁ m₁ p₂ m₂ : String)
    (hp : p₁ = p₂) (hm : m₁ = m₂) : cacheKey p₁ m₁ = cacheKey p₂ m₂ := by
  rw [hp, hm]

/-- Witness for C7 at platform `web`, message `hi`. -/
theorem C7_fingerprint_deterministic_witness :
    cacheKey "web" "hi" = cacheKey "web" "hi" :=
  C7_fingerprint_deterministic "web" "hi" "web" "hi" rfl rfl

/-- C5: while the chat client is missing or its status is not `ready`, POST
/api/send answers 503 and no outbound message is dispatched. -/
theorem C5_send_not_ready (ci : Bool) (bs : String)
    (number message : Option String) (so : Except String Unit)
    (h : ci = false ∨ bs ≠ "ready") :
    (sendHandler ci bs number message so).response.status = 503 ∧
    (sendHandler ci bs number message so).dispatched = none := by
  rw [sendHandler.eq_def, if_pos h]
  exact ⟨rfl, rfl⟩

/-- Witness for C5: client constructed but still `initializing`. -/
theorem C5_send_not_ready_witness :
    (sendHandler true "initializing" (some "15551234567") (some "hi")
      (.ok ())).response.status = 503 ∧
    (sendHandler true "initializing" (some "15551234567") (some "hi")
      (.ok ())).dispatched = none :=
  C5_send_not_ready true "initializing" (some "15551234567") (some "hi")
    (.ok ()) (Or.inr (by decide))

/-- C9: a chat-client message from `status@broadcast`, or sent by the bot
itself, is dropped: no completion call, no reply, and the state — including the
active-user set — is unchanged. -/
theorem C9_broadcast_and_own_skipped (st : AppState) (now : Nat) (msg : WAMsg)
    (o : AIOutcome) (h : msg.sender = "status@broadcast" ∨ msg.fromMe = true) :
    waMessageHandler st now msg o = ⟨st, 0, []⟩ := by
  rw [waMessageHandler, if_pos h]

/-- Witness for C9 at a broadcast-status message. -/
theorem C9_broadcast_and_own_skipped_witness :
    waMessageHandler initialState 0 ⟨"status@broadcast", false, "hi"⟩
      (.success "reply") = ⟨initialState, 0, []⟩ :=
  C9_broadcast_and_own_skipped initialState 0 ⟨"status@broadcast", false, "hi"⟩
    (.success "reply") (Or.inl rfl)

/-- C10: an /api/send request accepted for dispatch sends to the number
unchanged when it contains `@`, to the number with `@c.us` appended otherwise,
and the message text is passed through unchanged. -/
theorem C10_send_number_formatting (n m : String) (so : Except String Unit)
    (hn : n ≠ "") (hm : m ≠ "") :
    (sendHandler true "ready" (some n) (some m) so).dispatched =
      some ((if jsIncludes n '@' then n else n ++ "@c.us"), m) := by
  have hc : ¬ (true = false ∨ "ready" ≠ "ready") := by simp
  rw [sendHandler.eq_def, if_neg hc]
  have hnm : ¬ (n = "" ∨ m = "") := by simp [hn, hm]
  simp only [hnm, if_false, ite_false]
  cases so <;> rfl

/-- Witness for C10: one bare number, one jid already carrying `@`. -/
theorem C10_send_number_formatting_witness :
    (sendHandler true "ready" (some "15551234567") (some "hi")
      (.ok ())).dispatched = some ("15551234567@c.us", "hi") ∧
    (sendHandler true "ready" (some "1555@g.us") (some "yo")
      (.ok ())).dispatched = some ("1555@g.us", "yo") := by
  have h1 := C10_send_number_formatting "15551234567" "hi" (.ok ())
    (by decide) (by decide)
  have h2 := C10_send_number_formatting "1555@g.us" "yo" (.ok ())
    (by decide) (by decide)
  exact ⟨by simpa using h1, by simpa using h2⟩

/-- C1 as frozen is refuted by the JS truthiness test `if (cached)`
(src/index.js:87): when the remote API returns an empty reply, the first call
stores it under the fingerprint, yet the second call treats the cached empty
string as a miss and invokes the completion client again — two completion
calls for the same `(platform, message)` pair inside the TTL window, caching
enabled, starting from the empty cache. -/
theorem C1_counterexample :
    (getAIResponse appCache 0 "hi" "web" (.success "")).completionCalls +
      (getAIResponse (getAIResponse appCache 0 "hi" "web" (.success "")).cache
        0 "hi" "web" (.success "")).completionCalls = 2 := by
  rfl

/-- C1 amended: handling the same `(platform, message)` twice within the TTL
window invokes the completion client at most once, provided the AI reply is a
non-empty string: the first call (a cache miss) performs the one completion
call and stores the reply under the fingerprint; the second is answered from
the cache with no completion call. -/
theorem C1_cache_idempotence (c : NodeCache) (t₁ t₂ : Nat)
    (platform message reply : String) (o₂ : AIOutcome)
    (hmiss : (cacheGet c t₁ (cacheKey platform message)).1 = none)
    (hr : reply ≠ "") (hwin : t₂ < t₁ + c.stdTTL) :
    (getAIResponse c t₁ message platform (.success reply)).completionCalls = 1 ∧
    (getAIResponse (getAIResponse c t₁ message platform (.success reply)).cache
       t₂ message platform o₂).completionCalls = 0 ∧
    (getAIResponse (getAIResponse c t₁ message platform (.success reply)).cache
       t₂ message platform o₂).result = .ok reply := by
  rcases hg : cacheGet c t₁ (cacheKey platform message) with ⟨v, c₁⟩
  rw [hg] at hmiss
  simp only at hmiss
  subst hmiss
  have hstd : c₁.stdTTL = c.stdTTL := by
    have hsnd : (cacheGet c t₁ (cacheKey platform message)).2 = c₁ := by
      rw [hg]
    rw [← hsnd]
    exact cacheGet_stdTTL c t₁ (cacheKey platform message)
  have h₁ : getAIResponse c t₁ message platform (.success reply) =
      ⟨.ok reply, cacheSet c₁ t₁ (cacheKey platform message) reply, 1⟩ := by
    rw [getAIResponse.eq_def]
    simp only [ENABLE_CACHING, if_true, ite_true]
    rw [hg]
    rfl
  rw [h₁]
  have hl₂ := cacheLookup_cacheSet c₁ t₁ (cacheKey platform message) reply
  rw [hstd] at hl₂
  have h₂ : getAIResponse (cacheSet c₁ t₁ (cacheKey platform message) reply)
      t₂ message platform o₂ =
      ⟨.ok reply,
       { cacheSet c₁ t₁ (cacheKey platform message) reply with
         hits := (cacheSet c₁ t₁ (cacheKey platform message) reply).hits + 1 },
       0⟩ := by
    rw [getAIResponse.eq_def]
    simp only [ENABLE_CACHING, if_true, ite_true]
    rw [cacheGet, hl₂]
    simp only [hwin, if_pos hwin]
    simp [hr]
  rw [h₂]
  exact ⟨rfl, rfl, rfl⟩

/-- Witness for the amended C1: platform `web`, message `hi`, reply `yo`,
starting from the application's empty cache. -/
theorem C1_cache_idempotence_witness :
    (getAIResponse appCache 0 "hi" "web" (.success "yo")).completionCalls = 1 ∧
    (getAIResponse (getAIResponse appCache 0 "hi" "web" (.success "yo")).cache
       17 "hi" "web" .timeout).completionCalls = 0 ∧
    (getAIResponse (getAIResponse appCache 0 "hi" "web" (.success "yo")).cache
       17 "hi" "web" .timeout).result = .ok "yo" :=
  C1_cache_idempotence appCache 0 17 "web" "hi" "yo" .timeout (by decide)
    (by decide) (by decide)

/-- C3: POST /api/chat answers 400 without invoking the completion client when
the message is absent, not a string, or longer than 2000 UTF-16 units; a
message of exactly 2000 units is not rejected (its response is never 400). -/
theorem C3_chat_validation (st : AppState) (now : Nat) (sid : Option String)
    (o : AIOutcome) (m : Option JSVal) :
    ((m = none ∨ (∃ t, m = some (.other t)) ∨
        (∃ s, m = some (.str s) ∧ 2000 < jsLength s)) →
      (chatHandler st now m sid o).response.status = 400 ∧
      (chatHandler st now m sid o).completionCalls = 0) ∧
    (∀ s, m = some (.str s) → jsLength s = 2000 →
      (chatHandler st now m sid o).response.status ≠ 400) := by
  constructor
  · rintro (rfl | ⟨t, rfl⟩ | ⟨s, rfl, hlen⟩)
    · exact ⟨rfl, rfl⟩
    · exact ⟨rfl, rfl⟩
    · by_cases hs : s = ""
      · subst hs
        exact ⟨rfl, rfl⟩
      · rw [chatHandler.eq_def]
        simp only [hs, if_neg hs, hlen, ite_true, if_pos hlen]
        exact ⟨rfl, rfl⟩
  · rintro s rfl hlen
    have hs : s ≠ "" := by
      intro h
      rw [h] at hlen
      simp [jsLength] at hlen
    have hlt : ¬ 2000 < jsLength s := by omega
    rw [chatHandler.eq_def]
    simp only [if_neg hs, if_neg hlt]
    rcases hr : (getAIResponse st.cache now s "web" o).result with e | a <;>
      simp [hr]

/-- Witness for C3: an absent message is rejected with no completion call; the
2000-character message is not rejected. -/
theorem C3_chat_validation_witness :
    ((chatHandler initialState 0 none none (.success "ok")).response.status = 400 ∧
     (chatHandler initialState 0 none none (.success "ok")).completionCalls = 0) ∧
    (chatHandler initialState 0 (some (.str msg2000)) none
      (.success "ok")).response.status ≠ 400 :=
  ⟨(C3_chat_validation initialState 0 none (.success "ok") none).1 (Or.inl rfl),
   (C3_chat_validation initialState 0 none (.success "ok")
      (some (.str msg2000))).2 msg2000 rfl jsLength_msg2000⟩

/-- C4 as frozen is refuted at /api/send (src/index.js:325-328): a transport
failure's raw `error.message` is echoed verbatim in the 500 body, which is
neither the configured generic message nor the timeout message. -/
theorem C4_counterexample :
    (sendHandler true "ready" (some "15551234567") (some "hello")
      (.error "connect ECONNREFUSED 127.0.0.1:443")).response.status = 500 ∧
    (sendHandler true "ready" (some "15551234567") (some "hello")
      (.error "connect ECONNREFUSED 127.0.0.1:443")).response.error =
      some "connect ECONNREFUSED 127.0.0.1:443" ∧
    "connect ECONNREFUSED 127.0.0.1:443" ≠ ERROR_GENERIC ∧
    "connect ECONNREFUSED 127.0.0.1:443" ≠ ERROR_AI_TIMEOUT := by
  refine ⟨rfl, rfl, by decide, by decide⟩

/-- C4 amended: on /api/chat every 500 error body carries only the configured
generic message or the configured timeout message (the completion wrapper
classifies all its failures into those two); /api/send and /api/webhook,
however, echo the caught error's raw message. -/
theorem C4_chat_errors_sanitized (st : AppState) (now : Nat) (m : Option JSVal)
    (sid : Option String) (o : AIOutcome)
    (h : (chatHandler st now m sid o).response.status = 500) :
    (chatHandler st now m sid o).response.error = some ERROR_GENERIC ∨
    (chatHandler st now m sid o).response.error = some ERROR_AI_TIMEOUT := by
  rcases m with _ | mv
  · exact absurd h ((by decide : (400:Nat) ≠ 500))
  rcases mv with s | t
  · by_cases hs : s = ""
    · subst hs
      exact absurd h ((by decide : (400:Nat) ≠ 500))
    by_cases hlen : 2000 < jsLength s
    · rw [chatHandler.eq_def] at h
      dsimp only at h
      rw [if_neg hs, if_pos hlen] at h
      exact absurd h ((by decide : (400:Nat) ≠ 500))
    rw [chatHandler.eq_def] at h ⊢
    dsimp only at h ⊢
    rw [if_neg hs, if_neg hlen] at h ⊢
    rcases hr : (getAIResponse st.cache now s "web" o).result with e | a
    · dsimp only at h ⊢
      rcases getAIResponse_error_classified st.cache now s "web" o e hr
        with he | he
      · subst he
        right
        rw [if_neg (by decide : ¬ (ERROR_AI_TIMEOUT = ""))]
      · subst he
        left
        rw [if_neg (by decide : ¬ (ERROR_GENERIC = ""))]
    · rw [hr] at h
      exact absurd h ((by decide : (200:Nat) ≠ 500))
  · exact absurd h ((by decide : (400:Nat) ≠ 500))

/-- Witness for the amended C4: a completion timeout on /api/chat yields a 500
whose error body is one of the two configured messages. -/
theorem C4_chat_errors_sanitized_witness :
    (chatHandler initialState 0 (some (.str "hi")) none .timeout).response.error =
      some ERROR_GENERIC ∨
    (chatHandler initialState 0 (some (.str "hi")) none .timeout).response.error =
      some ERROR_AI_TIMEOUT :=
  C4_chat_errors_sanitized initialState 0 (some (.str "hi")) none .timeout rfl

/-- C6 as frozen is refuted at /api/chat: a web request carrying a session
identifier leaves the active-user set untouched — only the WhatsApp message
handler records users (src/index.js:177 vs. 237-276). -/
theorem C6_counterexample :
    "session-1" ∉ (chatHandler initialState 0 (some (.str "hello"))
      (some "session-1") (.success "ok")).state.connectedUsers := by
  decide

/-- C6 amended: a chat-client message that passes the broadcast/self filter
records its sender into the active-user set; a web /api/chat request never
changes the active-user set, whatever its sessionId. -/
theorem C6_active_user_recording :
    (∀ (st : AppState) (now : Nat) (msg : WAMsg) (o : AIOutcome),
      msg.sender ≠ "status@broadcast" → msg.fromMe = false →
      msg.sender ∈ (waMessageHandler st now msg o).state.connectedUsers) ∧
    (∀ (st : AppState) (now : Nat) (m : Option JSVal) (sid : Option String)
      (o : AIOutcome),
      (chatHandler st now m sid o).state.connectedUsers = st.connectedUsers) := by
  constructor
  · intro st now msg o h1 h2
    have hc : ¬ (msg.sender = "status@broadcast" ∨ msg.fromMe = true) := by
      simp [h1, h2]
    rw [waMessageHandler]
    rw [if_neg hc]
    dsimp only
    split <;> exact mem_setAdd st.connectedUsers msg.sender
  · intro st now m sid o
    rcases m with _ | mv
    · rfl
    rcases mv with s | t
    · by_cases hs : s = ""
      · subst hs
        rfl
      by_cases hlen : 2000 < jsLength s
      · rw [chatHandler.eq_def]
        dsimp only
        rw [if_neg hs, if_pos hlen]
      rw [chatHandler.eq_def]
      dsimp only
      rw [if_neg hs, if_neg hlen]
      rcases hr : (getAIResponse st.cache now s "web" o).result with e | a <;>
        rfl
    · rfl

/-- Witness for the amended C6: a fresh WhatsApp sender is recorded; a web chat
request with a sessionId leaves the set as it was. -/
theorem C6_active_user_recording_witness :
    "u1@c.us" ∈ (waMessageHandler initialState 0 ⟨"u1@c.us", false, "hi"⟩
      (.success "ok")).state.connectedUsers ∧
    (chatHandler initialState 0 (some (.str "hello")) (some "s1")
      (.success "ok")).state.connectedUsers = initialState.connectedUsers :=
  ⟨C6_active_user_recording.1 initialState 0 ⟨"u1@c.us", false, "hi"⟩
     (.success "ok") (by decide) rfl,
   C6_active_user_recording.2 initialState 0 (some (.str "hello")) (some "s1")
     (.success "ok")⟩

/-- One cache operation never lowers the hit or miss counter. -/
theorem applyOp_stats_monotone (c : NodeCache) (op : CacheOp) :
    c.hits ≤ (applyOp c op).hits ∧ c.misses ≤ (applyOp c op).misses := by
  cases op with
  | get now k =>
      dsimp only [applyOp]
      rw [cacheGet]
      rcases cacheLookup c.entries k with _ | e
      · dsimp only
        omega
      · dsimp only
        split <;> dsimp only <;> omega
  | set now k v =>
      dsimp only [applyOp, cacheSet]
      omega
  | flush =>
      dsimp only [applyOp, cacheClearHandler, flushAll]
      omega

/-- C8: over every sequence of cache operations — lookups, insertions and the
administrative flush of POST /api/cache/clear — the hit and miss counters
reported by `stats()` never decrease. -/
theorem C8_stats_monotone (c : NodeCache) (ops : List CacheOp) :
    (getStats c).hits ≤ (getStats (applyOps c ops)).hits ∧
    (getStats c).misses ≤ (getStats (applyOps c ops)).misses := by
  induction ops generalizing c with
  | nil => exact ⟨le_refl _, le_refl _⟩
  | cons op rest ih =>
      have h1 := applyOp_stats_monotone c op
      have h2 := ih (applyOp c op)
      rw [applyOps] at h2 ⊢
      rw [List.foldl_cons]
      dsimp only [getStats] at h2 ⊢
      exact ⟨le_trans h1.1 h2.1, le_trans h1.2 h2.2⟩

end WABot
